import Mathlib

/-!
Verification of the presigned-access Lambda handlers
(`src/terraform/modules/presigned-access/lambda/upload.py` and
`src/terraform/modules/presigned-access/lambda/download.py`).

The handlers are embedded shallowly: JSON-decoded Python values become the
inductive `JVal` (with its own spine types `JArr`/`JObj` for arrays and
dicts, isomorphic to nested lists, so that all functions are structurally
recursive and computable), and the two module-level handlers become pure
Lean functions that take the configuration (environment variables), the
event, the clock readings (one per `datetime.utcnow()` call in the source)
and the outcome of each storage-collaborator call as explicit arguments,
returning the response envelope together with the list of collaborator
calls made.
-/

mutual
/-- A JSON-decoded Python value, as produced by `json.loads`.  JSON numbers
are modelled as integers (no claim touches fractional values). -/
inductive JVal where
  | null
  | bool (b : Bool)
  | num (n : Int)
  | str (s : String)
  | arr (elems : JArr)
  | obj (entries : JObj)
deriving Repr, DecidableEq

/-- Spine of a JSON array. -/
inductive JArr where
  | nil
  | cons (head : JVal) (tail : JArr)
deriving Repr, DecidableEq

/-- Spine of a JSON object (a Python dict in insertion order; `json.loads`
yields unique keys, last occurrence winning). -/
inductive JObj where
  | nil
  | cons (key : String) (val : JVal) (tail : JObj)
deriving Repr, DecidableEq
end

/-- View a JSON object as an association list. -/
def toEntries : JObj → List (String × JVal)
  | .nil => []
  | .cons k v t => (k, v) :: toEntries t

/-- Build a JSON object from an association list. -/
def ofEntries : List (String × JVal) → JObj
  | [] => .nil
  | (k, v) :: t => .cons k v (ofEntries t)

/-- Build a JSON array from a list. -/
def ofElems : List JVal → JArr
  | [] => .nil
  | v :: t => .cons v (ofElems t)

/-- A JSON object value given by an association list. -/
def JVal.objL (l : List (String × JVal)) : JVal := .obj (ofEntries l)

/-- A JSON array value given by a list. -/
def JVal.arrL (l : List JVal) : JVal := .arr (ofElems l)

/-- The apostrophe character used by Python `repr` of strings. -/
def squote : String := String.singleton (Char.ofNat 39)

/-- Opening brace of a Python `dict` rendering. -/
def lbrace : String := String.singleton (Char.ofNat 123)

/-- Closing brace of a Python `dict` rendering. -/
def rbrace : String := String.singleton (Char.ofNat 125)

mutual
/-- Python `repr` of a JSON-decoded value (escaping inside string contents
is not modelled; no claim evaluates it on strings needing escapes). -/
def pyRepr : JVal → String
  | .null => "None"
  | .bool b => if b then "True" else "False"
  | .num n => toString n
  | .str s => squote ++ s ++ squote
  | .arr xs => "[" ++ pyReprArr xs ++ "]"
  | .obj xs => lbrace ++ pyReprObj xs ++ rbrace

/-- Comma-joined renderings of array elements. -/
def pyReprArr : JArr → String
  | .nil => ""
  | .cons v .nil => pyRepr v
  | .cons v t => pyRepr v ++ ", " ++ pyReprArr t

/-- Comma-joined `key: value` renderings of dict entries. -/
def pyReprObj : JObj → String
  | .nil => ""
  | .cons k v .nil => squote ++ k ++ squote ++ ": " ++ pyRepr v
  | .cons k v t => squote ++ k ++ squote ++ ": " ++ pyRepr v ++ ", " ++ pyReprObj t
end

/-- Python `str` of a JSON-decoded value: identity on strings, `repr`
otherwise (matching CPython for `None`, booleans, ints, lists and dicts). -/
def pyStr : JVal → String
  | .str s => s
  | v => pyRepr v

/-- Python `str` applied to the result of `dict.get` (which is `None` when
the key is absent). -/
def pyStrOpt : Option JVal → String
  | none => "None"
  | some v => pyStr v

/-- Python truthiness of a JSON-decoded value. -/
def pyTruthy : JVal → Bool
  | .null => false
  | .bool b => b
  | .num n => n != 0
  | .str s => s != ""
  | .arr .nil => false
  | .arr (.cons _ _) => true
  | .obj .nil => false
  | .obj (.cons _ _ _) => true

/-- Truthiness of a `dict.get` result (`None` when absent, hence falsy). -/
def pyTruthyOpt : Option JVal → Bool
  | none => false
  | some v => pyTruthy v

/-- Python type name, used in `AttributeError` messages. -/
def pyTypeName : JVal → String
  | .null => "NoneType"
  | .bool _ => "bool"
  | .num _ => "int"
  | .str _ => "str"
  | .arr _ => "list"
  | .obj _ => "dict"

/-- `str` of the `AttributeError` raised by attribute access on a value
lacking it, e.g. calling `.get` on a non-dict body. -/
def attrErrMsg (v : JVal) (attr : String) : String :=
  squote ++ pyTypeName v ++ squote ++ " object has no attribute " ++
    squote ++ attr ++ squote

/-- Python substring containment: `needle in hay`. -/
def strContains (hay needle : String) : Bool :=
  decide (needle.data <:+: hay.data)

/-- A UTC clock reading, one per `datetime.utcnow()` call in the source.
Field ranges follow the `datetime` invariants (month 1-12, day 1-31,
hour 0-23, minute/second 0-59, microsecond 0-999999). -/
structure DateTime where
  year : Nat
  month : Nat
  day : Nat
  hour : Nat
  minute : Nat
  second : Nat
  microsecond : Nat
deriving Repr, DecidableEq

/-- The decimal digit character of `n % 10`. -/
def digitChar (n : Nat) : Char := Char.ofNat (48 + n % 10)

/-- Two-digit zero-padded rendering (as `strftime` `%m`, `%d`, `%H`, `%M`, `%S`). -/
def pad2 (n : Nat) : String := String.mk [digitChar (n / 10), digitChar n]

/-- Four-digit zero-padded rendering (as `strftime` `%Y` for years 1000-9999). -/
def pad4 (n : Nat) : String :=
  String.mk [digitChar (n / 1000), digitChar (n / 100), digitChar (n / 10), digitChar n]

/-- Six-digit zero-padded rendering (the microsecond part of `isoformat`). -/
def pad6 (n : Nat) : String :=
  String.mk [digitChar (n / 100000), digitChar (n / 10000), digitChar (n / 1000),
             digitChar (n / 100), digitChar (n / 10), digitChar n]

/-- `datetime.strftime` with format `%Y/%m/%d/%H%M%S` (upload key derivation). -/
def strfKeyTimestamp (t : DateTime) : String :=
  pad4 t.year ++ "/" ++ pad2 t.month ++ "/" ++ pad2 t.day ++ "/" ++
    pad2 t.hour ++ pad2 t.minute ++ pad2 t.second

/-- `datetime.isoformat()`: the microsecond part is omitted when zero. -/
def isoformat (t : DateTime) : String :=
  pad4 t.year ++ "-" ++ pad2 t.month ++ "-" ++ pad2 t.day ++ "T" ++
    pad2 t.hour ++ ":" ++ pad2 t.minute ++ ":" ++ pad2 t.second ++
    (if t.microsecond = 0 then "" else "." ++ pad6 t.microsecond)

/-- An API Gateway response envelope.  The body is kept as the value handed
to `json.dumps` (serialization is the stdlib collaborator, out of scope). -/
structure Response where
  statusCode : Int
  headers : List (String × String)
  body : JVal
deriving Repr, DecidableEq

/-- The shape of the incoming Lambda event, as consumed by the body-parsing
step shared by both handlers: either the event has no `body` key and is used
as the body itself, or `body` is a string (with the outcome of `json.loads`
on it, `Except.error` modelling a raised `JSONDecodeError` carrying its
`str` rendering), or `body` is already a decoded value. -/
inductive EventInput where
  | noBody (event : JVal)
  | strBody (loadsResult : Except String JVal)
  | objBody (v : JVal)

/-- The body-parsing step of both handlers (upload.py lines 35-38,
download.py lines 25-28). -/
def extractBody : EventInput → Except String JVal
  | .noBody e => .ok e
  | .strBody r => r
  | .objBody v => .ok v

/-- Python `dict` assignment `d[k] = v`: replaces the value in place when
the key is present, appends otherwise. -/
def dictInsert (d : List (String × JVal)) (k : String) (v : JVal) :
    List (String × JVal) :=
  match d with
  | [] => [(k, v)]
  | (k1, v1) :: rest =>
      if k1 = k then (k1, v) :: rest else (k1, v1) :: dictInsert rest k v

namespace Upload

/-- Environment configuration of upload.py (lines 15-19).  `maxFileSize` is
in bytes, i.e. the MB environment value already multiplied by 1024*1024. -/
structure Cfg where
  bucketName : String
  expirationTime : Int
  maxFileSize : Int
  allowedContentTypes : List String
  kmsKeyId : String

/-- The content-type guard of upload.py line 49:
`ALLOWED_CONTENT_TYPES and content_type not in ALLOWED_CONTENT_TYPES`
(an empty configured list is falsy, i.e. unrestricted; Python `in` on a
list of strings can only match a string value). -/
def ctDisallowed (cfg : Cfg) (content_type : JVal) : Bool :=
  !cfg.allowedContentTypes.isEmpty &&
    !(match content_type with
      | .str s => cfg.allowedContentTypes.contains s
      | _ => false)

/-- A policy condition as built by upload.py lines 67-83. -/
inductive Cond where
  | contentType (v : JVal)
  | contentLengthRange (lo hi : Int)
  | uploadedAt (v : JVal)
  | sseAlg (v : String)
  | sseKeyId (v : String)
deriving Repr, DecidableEq

/-- The Python value each condition is: the dict or list literal of the
source, used to model `str(c)` in the de-duplication filter. -/
def condToPy : Cond → JVal
  | .contentType v => .objL [("Content-Type", v)]
  | .contentLengthRange lo hi =>
      .arrL [.str "content-length-range", .num lo, .num hi]
  | .uploadedAt v => .objL [("x-amz-meta-uploaded-at", v)]
  | .sseAlg v => .objL [("x-amz-server-side-encryption", .str v)]
  | .sseKeyId v => .objL [("x-amz-server-side-encryption-aws-kms-key-id", .str v)]

/-- The filter predicate of upload.py line 79:
`'x-amz-server-side-encryption' not in str(c)`. -/
def condKeep (c : Cond) : Bool :=
  !(strContains (pyRepr (condToPy c)) "x-amz-server-side-encryption")

/-- The encryption-setup step on the condition list (upload.py lines 79-83):
remove every condition whose rendering mentions the encryption field name,
then append the two encryption conditions. -/
def encSetup (kmsKeyId : String) (conds : List Cond) : List Cond :=
  conds.filter condKeep ++ [Cond.sseAlg "aws:kms", Cond.sseKeyId kmsKeyId]

/-- The metadata loop of upload.py lines 63-64: one dict assignment
`fields['x-amz-meta-' + key] = str(value)` per metadata entry. -/
def metaFold (ms : List (String × JVal)) (fields : List (String × JVal)) :
    List (String × JVal) :=
  ms.foldl (fun fs p => dictInsert fs ("x-amz-meta-" ++ p.1) (.str (pyStr p.2))) fields

/-- Outcome of the `generate_presigned_post` collaborator call: success
returns the url and the fields echoed by the provider; a `ClientError` or
any other raised exception carries its `str` rendering. -/
inductive PostOutcome where
  | ok (url : String) (retFields : List (String × JVal))
  | clientError (msg : String)
  | exc (msg : String)

/-- A collaborator call made by upload.py. -/
inductive Call where
  | presignPost (bucket : String) (key : String) (fields : List (String × JVal))
      (conditions : List Cond) (expiresIn : Int)
deriving Repr, DecidableEq

/-- `success_response` of upload.py lines 109-120. -/
def success_response (data : JVal) : Response :=
  { statusCode := 200
    headers := [("Content-Type", "application/json"),
                ("Access-Control-Allow-Origin", "*"),
                ("Access-Control-Allow-Headers", "Content-Type"),
                ("Access-Control-Allow-Methods", "POST")]
    body := data }

/-- `error_response` of upload.py lines 122-133. -/
def error_response (statusCode : Int) (message : String) : Response :=
  { statusCode := statusCode
    headers := [("Content-Type", "application/json"),
                ("Access-Control-Allow-Origin", "*")]
    body := .objL [("error", .str message)] }

/-- The main path of the upload handler once the body has been extracted as
a dict (upload.py lines 40-100).  `now1` and `now2` are the results of the
two `datetime.utcnow()` calls (lines 53 and 59, in order). -/
def handleBody (cfg : Cfg) (entries : List (String × JVal))
    (now1 now2 : DateTime) (postResult : PostOutcome) :
    Response × List Call :=
  let filename := entries.lookup "filename"
  let content_type := (entries.lookup "content_type").getD (.str "application/octet-stream")
  let metadata := (entries.lookup "metadata").getD (.objL [])
  if !(pyTruthyOpt filename) then
    (error_response 400 "filename is required", [])
  else if ctDisallowed cfg content_type then
    (error_response 400 ("Content type " ++ pyStr content_type ++ " not allowed"), [])
  else
    let timestamp := strfKeyTimestamp now1
    let object_key := "uploads/" ++ timestamp ++ "/" ++ pyStrOpt filename
    let fields0 : List (String × JVal) :=
      [("Content-Type", content_type),
       ("x-amz-meta-uploaded-at", .str (isoformat now2))]
    match metadata with
    | .obj ms =>
        let fields1 := metaFold (toEntries ms) fields0
        -- line 70 reads fields['x-amz-meta-uploaded-at'] after the metadata loop
        let tsVal := (fields1.lookup "x-amz-meta-uploaded-at").getD .null
        let conditions0 : List Cond :=
          [.contentType content_type,
           .contentLengthRange 1 cfg.maxFileSize,
           .uploadedAt tsVal]
        let (fields2, conditions1) :=
          if cfg.kmsKeyId ≠ "" then
            (dictInsert
              (dictInsert fields1 "x-amz-server-side-encryption" (.str "aws:kms"))
              "x-amz-server-side-encryption-aws-kms-key-id" (.str cfg.kmsKeyId),
             encSetup cfg.kmsKeyId conditions0)
          else
            (fields1, conditions0)
        let call := Call.presignPost cfg.bucketName object_key fields2 conditions1
                      cfg.expirationTime
        match postResult with
        | .ok url retFields =>
            (success_response (.objL
              [("upload_url", .str url),
               ("fields", .objL retFields),
               ("object_key", .str object_key),
               ("expires_in", .num cfg.expirationTime),
               -- Python float division; exact for whole-MiB configurations
               ("max_file_size_mb", .num (cfg.maxFileSize / (1024 * 1024)))]),
             [call])
        | .clientError m =>
            (error_response 500 ("Error generating presigned URL: " ++ m), [call])
        | .exc m =>
            (error_response 500 ("Unexpected error: " ++ m), [call])
    | bad =>
        -- metadata.items() on a non-dict raises AttributeError (line 63)
        (error_response 500 ("Unexpected error: " ++ attrErrMsg bad "items"), [])

/-- `lambda_handler` of upload.py, with the collaborator outcome and the two
clock readings passed explicitly. -/
def lambda_handler (cfg : Cfg) (event : EventInput)
    (now1 now2 : DateTime) (postResult : PostOutcome) :
    Response × List Call :=
  match extractBody event with
  | .error e => (error_response 500 ("Unexpected error: " ++ e), [])
  | .ok (.obj entries) => handleBody cfg (toEntries entries) now1 now2 postResult
  | .ok v =>
      -- body.get on a non-dict raises AttributeError (line 40)
      (error_response 500 ("Unexpected error: " ++ attrErrMsg v "get"), [])

/-- Keys of the presign-post calls in a call log. -/
def postKeys (cs : List Call) : List String :=
  cs.map (fun c => match c with | .presignPost _ k _ _ _ => k)

/-- Condition lists of the presign-post calls in a call log. -/
def postConds (cs : List Call) : List Cond :=
  cs.flatMap (fun c => match c with | .presignPost _ _ _ conds _ => conds)

/-- Field maps of the presign-post calls in a call log. -/
def postFields (cs : List Call) : List (String × JVal) :=
  cs.flatMap (fun c => match c with | .presignPost _ _ fs _ _ => fs)

/-- The form field a condition binds, if any: the equality conditions bind
one field name to one value; the size-range condition binds no field. -/
def condBinds : Cond → Option (String × JVal)
  | .contentType v => some ("Content-Type", v)
  | .contentLengthRange _ _ => none
  | .uploadedAt v => some ("x-amz-meta-uploaded-at", v)
  | .sseAlg v => some ("x-amz-server-side-encryption", .str v)
  | .sseKeyId v => some ("x-amz-server-side-encryption-aws-kms-key-id", .str v)

/-- Mutual consistency of a field map and a condition set, with a list of
exempt field names: every non-exempt field has a condition binding it to
the same value, and every field-bound condition matches a field entry. -/
def consistent (fields : List (String × JVal)) (conds : List Cond)
    (exempt : List String) : Prop :=
  (∀ p ∈ fields, p.1 ∈ exempt ∨ ∃ c ∈ conds, condBinds c = some p) ∧
  (∀ c ∈ conds, ∀ p, condBinds c = some p → p ∈ fields)

/-- Condition-kind tests, for counting occurrences in a condition set. -/
def isCTCond : Cond → Bool
  | .contentType _ => true
  | _ => false

def isLenCond : Cond → Bool
  | .contentLengthRange _ _ => true
  | _ => false

def isTSCond : Cond → Bool
  | .uploadedAt _ => true
  | _ => false

def isAlgCond : Cond → Bool
  | .sseAlg _ => true
  | _ => false

def isKeyIdCond : Cond → Bool
  | .sseKeyId _ => true
  | _ => false

end Upload

namespace Download

/-- Environment configuration of download.py (lines 8-10). -/
structure Cfg where
  bucketName : String
  expirationTime : Int
  kmsKeyId : String

/-- Outcome of the `head_object` collaborator call: success, a raised
`ClientError` carrying `e.response['Error']['Code']` and its `str`
rendering, or any other raised exception. -/
inductive HeadOutcome where
  | ok
  | clientError (code : String) (msg : String)
  | exc (msg : String)

/-- Outcome of the `generate_presigned_url` collaborator call. -/
inductive GetOutcome where
  | ok (url : String)
  | clientError (msg : String)
  | exc (msg : String)

/-- A collaborator call made by download.py.  The key is carried as the
Python value the handler passes through. -/
inductive Call where
  | headObject (bucket : String) (key : JVal)
  | presignGet (bucket : String) (key : JVal) (disposition : Option JVal)
      (expiresIn : Int)
deriving Repr, DecidableEq

/-- `success_response` of download.py lines 75-86. -/
def success_response (data : JVal) : Response :=
  { statusCode := 200
    headers := [("Content-Type", "application/json"),
                ("Access-Control-Allow-Origin", "*"),
                ("Access-Control-Allow-Headers", "Content-Type"),
                ("Access-Control-Allow-Methods", "POST")]
    body := data }

/-- `error_response` of download.py lines 88-99. -/
def error_response (statusCode : Int) (message : String) : Response :=
  { statusCode := statusCode
    headers := [("Content-Type", "application/json"),
                ("Access-Control-Allow-Origin", "*")]
    body := .objL [("error", .str message)] }

/-- The main path of the download handler once the body has been extracted
as a dict (download.py lines 30-66). -/
def handleBody (cfg : Cfg) (entries : List (String × JVal))
    (headResult : HeadOutcome) (getResult : GetOutcome) :
    Response × List Call :=
  let object_key := entries.lookup "object_key"
  let response_content_disposition := entries.lookup "response_content_disposition"
  if !(pyTruthyOpt object_key) then
    (error_response 400 "object_key is required", [])
  else
    let key := object_key.getD .null
    let headCall := Call.headObject cfg.bucketName key
    match headResult with
    | .clientError code msg =>
        if code = "404" then
          (error_response 404 "Object not found", [headCall])
        else
          -- re-raised, caught by the outer `except ClientError` (line 68)
          (error_response 500 ("Error generating presigned URL: " ++ msg), [headCall])
    | .exc msg =>
        (error_response 500 ("Unexpected error: " ++ msg), [headCall])
    | .ok =>
        let disposition :=
          if pyTruthyOpt response_content_disposition then
            response_content_disposition
          else
            none
        let getCall := Call.presignGet cfg.bucketName key disposition
                         cfg.expirationTime
        match getResult with
        | .ok url =>
            (success_response (.objL
              [("download_url", .str url),
               ("object_key", key),
               ("expires_in", .num cfg.expirationTime)]),
             [headCall, getCall])
        | .clientError m =>
            (error_response 500 ("Error generating presigned URL: " ++ m),
             [headCall, getCall])
        | .exc m =>
            (error_response 500 ("Unexpected error: " ++ m),
             [headCall, getCall])

/-- `lambda_handler` of download.py, with the collaborator outcomes passed
explicitly. -/
def lambda_handler (cfg : Cfg) (event : EventInput)
    (headResult : HeadOutcome) (getResult : GetOutcome) :
    Response × List Call :=
  match extractBody event with
  | .error e => (error_response 500 ("Unexpected error: " ++ e), [])
  | .ok (.obj entries) => handleBody cfg (toEntries entries) headResult getResult
  | .ok v =>
      (error_response 500 ("Unexpected error: " ++ attrErrMsg v "get"), [])

/-- Whether a call is a presigning call (as opposed to an existence check). -/
def isPresignGet : Call → Bool
  | .presignGet _ _ _ _ => true
  | .headObject _ _ => false

end Download

/-! ### Helper lemmas -/

lemma strContains_of_split (hay needle : String) (l r : List Char)
    (h : hay.data = l ++ needle.data ++ r) : strContains hay needle = true := by
  simp only [strContains, decide_eq_true_eq]
  exact ⟨l, r, h.symm⟩

lemma str_append_right_inj (a : String) {b c : String}
    (h : a ++ b = a ++ c) : b = c := by
  have hd := congrArg String.data h
  rw [String.data_append, String.data_append] at hd
  exact String.ext (List.append_cancel_left hd)

/-- A metadata-derived field name differs from any string not starting with
the metadata marker. -/
lemma metaKey_ne (k : String) (s : String)
    (h : s.data.take 11 ≠ ("x-amz-meta-" : String).data) :
    "x-amz-meta-" ++ k ≠ s := by
  intro heq
  apply h
  have hd := congrArg String.data heq
  rw [String.data_append] at hd
  rw [← hd]
  have h11 : ("x-amz-meta-" : String).data.length = 11 := by decide
  rw [← h11, List.take_left]

lemma metaKey_ne_ct (k : String) : "x-amz-meta-" ++ k ≠ "Content-Type" :=
  metaKey_ne k _ (by decide)

lemma metaKey_ne_sseAlg (k : String) :
    "x-amz-meta-" ++ k ≠ "x-amz-server-side-encryption" :=
  metaKey_ne k _ (by decide)

lemma metaKey_ne_sseKeyId (k : String) :
    "x-amz-meta-" ++ k ≠ "x-amz-server-side-encryption-aws-kms-key-id" :=
  metaKey_ne k _ (by decide)

lemma metaKey_inj {k1 k2 : String}
    (h : "x-amz-meta-" ++ k1 = "x-amz-meta-" ++ k2) : k1 = k2 :=
  str_append_right_inj _ h

lemma metaKey_ne_ua (k : String) (h : k ≠ "uploaded-at") :
    "x-amz-meta-" ++ k ≠ "x-amz-meta-uploaded-at" := by
  intro heq
  apply h
  apply metaKey_inj
  rw [heq]
  decide

lemma dictInsert_of_not_mem (d : List (String × JVal)) (k : String) (v : JVal)
    (h : k ∉ d.map Prod.fst) : dictInsert d k v = d ++ [(k, v)] := by
  induction d with
  | nil => rfl
  | cons p t ih =>
      obtain ⟨k1, v1⟩ := p
      simp only [List.map_cons, List.mem_cons] at h
      push_neg at h
      simp only [dictInsert, if_neg (fun hh : k1 = k => h.1 hh.symm), List.cons_append]
      rw [ih h.2]

lemma lookup_dictInsert_ne (d : List (String × JVal)) (k k2 : String) (v : JVal)
    (h : k2 ≠ k) : (dictInsert d k2 v).lookup k = d.lookup k := by
  induction d with
  | nil =>
      have hbeq : (k == k2) = false := beq_eq_false_iff_ne.mpr (fun hh => h hh.symm)
      simp [dictInsert, List.lookup, hbeq]
  | cons p t ih =>
      obtain ⟨k1, v1⟩ := p
      by_cases h1 : k1 = k2
      · subst h1
        have hbeq : (k == k1) = false := beq_eq_false_iff_ne.mpr (fun hh => h hh.symm)
        simp [dictInsert, List.lookup, hbeq]
      · simp only [dictInsert, if_neg h1]
        by_cases h2 : k = k1
        · subst h2
          simp [List.lookup]
        · have hbeq : (k == k1) = false := beq_eq_false_iff_ne.mpr h2
          simp [List.lookup, hbeq, ih]

lemma Upload.metaFold_append (ms : List (String × JVal)) :
    ∀ acc : List (String × JVal),
    (∀ p ∈ ms, ("x-amz-meta-" ++ p.1) ∉ acc.map Prod.fst) →
    (ms.map Prod.fst).Nodup →
    Upload.metaFold ms acc
      = acc ++ ms.map (fun p => ("x-amz-meta-" ++ p.1, JVal.str (pyStr p.2))) := by
  induction ms with
  | nil => intro acc _ _; simp [Upload.metaFold]
  | cons p t ih =>
      intro acc hfresh hnd
      obtain ⟨k, v⟩ := p
      simp only [List.map_cons, List.nodup_cons] at hnd
      have hstep : Upload.metaFold ((k, v) :: t) acc
          = Upload.metaFold t (dictInsert acc ("x-amz-meta-" ++ k) (.str (pyStr v))) := rfl
      rw [hstep, dictInsert_of_not_mem _ _ _ (hfresh (k, v) (by simp))]
      rw [ih _ ?_ hnd.2]
      · simp
      · intro q hq
        simp only [List.map_append, List.mem_append, List.map_cons, List.map_nil]
        push_neg
        constructor
        · exact hfresh q (by simp [hq])
        · simp only [List.mem_singleton]
          intro heq
          have : q.1 = k := metaKey_inj heq
          exact hnd.1 (this ▸ List.mem_map_of_mem Prod.fst hq)

lemma Upload.metaFold_lookup (ms : List (String × JVal)) (target : String) :
    ∀ acc : List (String × JVal),
    (∀ p ∈ ms, ("x-amz-meta-" ++ p.1) ≠ target) →
    (Upload.metaFold ms acc).lookup target = acc.lookup target := by
  induction ms with
  | nil => intro acc _; rfl
  | cons p t ih =>
      intro acc h
      have hstep : Upload.metaFold (p :: t) acc
          = Upload.metaFold t (dictInsert acc ("x-amz-meta-" ++ p.1) (.str (pyStr p.2))) := rfl
      rw [hstep, ih _ (fun q hq => h q (by simp [hq])),
          lookup_dictInsert_ne _ _ _ _ (h p (by simp))]

/-- The rendered algorithm condition always mentions the encryption field
name (its key is that very string), so the filter always removes it. -/
lemma Upload.condKeep_sseAlg (v : String) : Upload.condKeep (.sseAlg v) = false := by
  have h : strContains (pyRepr (Upload.condToPy (.sseAlg v)))
      "x-amz-server-side-encryption" = true := by
    apply strContains_of_split _ _ ((lbrace ++ squote).data)
        ((squote ++ ": " ++ squote ++ v ++ squote ++ rbrace).data)
    simp [Upload.condToPy, JVal.objL, ofEntries, pyRepr, pyReprObj,
          String.data_append, List.append_assoc]
  simp [Upload.condKeep, h]

/-- The rendered key-identifier condition always mentions the encryption
field name (its key starts with that string), so the filter removes it. -/
lemma Upload.condKeep_sseKeyId (v : String) : Upload.condKeep (.sseKeyId v) = false := by
  have h : strContains (pyRepr (Upload.condToPy (.sseKeyId v)))
      "x-amz-server-side-encryption" = true := by
    apply strContains_of_split _ _ ((lbrace ++ squote).data)
        (("-aws-kms-key-id" ++ squote ++ ": " ++ squote ++ v ++ squote ++ rbrace).data)
    simp only [Upload.condToPy, JVal.objL, ofEntries, pyRepr, pyReprObj,
               String.data_append, List.append_assoc]
    rfl
  simp [Upload.condKeep, h]

/-- The two appended encryption conditions never survive the filter. -/
lemma Upload.filter_enc_nil (kms : String) :
    List.filter Upload.condKeep [Upload.Cond.sseAlg "aws:kms", Upload.Cond.sseKeyId kms] = [] := by
  simp [List.filter, Upload.condKeep_sseAlg, Upload.condKeep_sseKeyId]

/-- The encryption-setup step is idempotent. -/
lemma Upload.encSetup_idem (kms : String) (l : List Upload.Cond) :
    Upload.encSetup kms (Upload.encSetup kms l) = Upload.encSetup kms l := by
  unfold Upload.encSetup
  rw [List.filter_append, Upload.filter_enc_nil, List.append_nil, List.filter_filter]
  congr 1
  apply List.filter_congr
  intro c _
  simp

/-- Running the encryption-setup step any further number of times after the
first changes nothing. -/
lemma Upload.encSetup_iterate (kms : String) (l : List Upload.Cond) :
    ∀ n : Nat, (Upload.encSetup kms)^[n] (Upload.encSetup kms l) = Upload.encSetup kms l := by
  intro n
  induction n with
  | zero => rfl
  | succ n ih => rw [Function.iterate_succ_apply, Upload.encSetup_idem, ih]

/-- Unfolding lemma: the collaborator call recorded by a validated upload
request, spelled out. -/
lemma Upload.handleBody_run (cfg : Upload.Cfg) (entries : List (String × JVal))
    (now1 now2 : DateTime) (post : Upload.PostOutcome) (ms : JObj)
    (hfn : pyTruthyOpt (entries.lookup "filename") = true)
    (hct : Upload.ctDisallowed cfg
      ((entries.lookup "content_type").getD (.str "application/octet-stream")) = false)
    (hmd : (entries.lookup "metadata").getD (.objL []) = .obj ms) :
    (Upload.handleBody cfg entries now1 now2 post).2
      = [Upload.Call.presignPost cfg.bucketName
          ("uploads/" ++ strfKeyTimestamp now1 ++ "/" ++ pyStrOpt (entries.lookup "filename"))
          (if cfg.kmsKeyId ≠ "" then
            dictInsert
              (dictInsert
                (Upload.metaFold (toEntries ms)
                  [("Content-Type",
                    (entries.lookup "content_type").getD (.str "application/octet-stream")),
                   ("x-amz-meta-uploaded-at", .str (isoformat now2))])
                "x-amz-server-side-encryption" (.str "aws:kms"))
              "x-amz-server-side-encryption-aws-kms-key-id" (.str cfg.kmsKeyId)
          else
            Upload.metaFold (toEntries ms)
              [("Content-Type",
                (entries.lookup "content_type").getD (.str "application/octet-stream")),
               ("x-amz-meta-uploaded-at", .str (isoformat now2))])
          (if cfg.kmsKeyId ≠ "" then
            Upload.encSetup cfg.kmsKeyId
              [.contentType ((entries.lookup "content_type").getD (.str "application/octet-stream")),
               .contentLengthRange 1 cfg.maxFileSize,
               .uploadedAt (((Upload.metaFold (toEntries ms)
                  [("Content-Type",
                    (entries.lookup "content_type").getD (.str "application/octet-stream")),
                   ("x-amz-meta-uploaded-at", .str (isoformat now2))]).lookup
                    "x-amz-meta-uploaded-at").getD .null)]
          else
            [.contentType ((entries.lookup "content_type").getD (.str "application/octet-stream")),
             .contentLengthRange 1 cfg.maxFileSize,
             .uploadedAt (((Upload.metaFold (toEntries ms)
                [("Content-Type",
                  (entries.lookup "content_type").getD (.str "application/octet-stream")),
                 ("x-amz-meta-uploaded-at", .str (isoformat now2))]).lookup
                  "x-amz-meta-uploaded-at").getD .null)])
          cfg.expirationTime] := by
  unfold Upload.handleBody
  simp only [hfn, Bool.not_true, Bool.false_eq_true, if_false, hct, hmd]
  by_cases hk : cfg.kmsKeyId = ""
  · simp only [hk, ne_eq, not_true_eq_false, if_false, ite_false]
    cases post <;> simp
  · simp only [ne_eq, hk, not_false_eq_true, if_true, ite_true]
    cases post <;> simp

/-! ### Claim theorems -/

/-- Sample clock reading used in concrete instances (one second before a
day boundary). -/
def tA : DateTime := ⟨2024, 2, 13, 23, 59, 59, 0⟩

/-- Sample clock reading used in concrete instances (one second after
`tA`, crossing the day boundary). -/
def tB : DateTime := ⟨2024, 2, 14, 0, 0, 0, 0⟩

/-- C10: for every event whose `body` is a string that is not valid JSON,
both handlers return a 500 envelope whose message is prefixed
"Unexpected error" (not a 400 validation error), and no collaborator call
is made. -/
theorem c10_invalid_json_body_yields_500 (cfgU : Upload.Cfg) (cfgD : Download.Cfg)
    (e : String) (now1 now2 : DateTime) (post : Upload.PostOutcome)
    (headR : Download.HeadOutcome) (getR : Download.GetOutcome) :
    Upload.lambda_handler cfgU (.strBody (.error e)) now1 now2 post
      = (Upload.error_response 500 ("Unexpected error: " ++ e), []) ∧
    Download.lambda_handler cfgD (.strBody (.error e)) headR getR
      = (Download.error_response 500 ("Unexpected error: " ++ e), []) :=
  ⟨rfl, rfl⟩

/-- C3: a request whose required identifier (`filename` for upload,
`object_key` for download) is missing or empty yields a 400 validation
envelope and no collaborator call. -/
theorem c3_missing_identifier_rejected_without_calls
    (cfgU : Upload.Cfg) (cfgD : Download.Cfg) (eventU eventD : EventInput)
    (entriesU entriesD : JObj) (now1 now2 : DateTime) (post : Upload.PostOutcome)
    (headR : Download.HeadOutcome) (getR : Download.GetOutcome)
    (hbU : extractBody eventU = .ok (.obj entriesU))
    (hfn : (toEntries entriesU).lookup "filename" = none ∨
           (toEntries entriesU).lookup "filename" = some (.str ""))
    (hbD : extractBody eventD = .ok (.obj entriesD))
    (hok : (toEntries entriesD).lookup "object_key" = none ∨
           (toEntries entriesD).lookup "object_key" = some (.str "")) :
    Upload.lambda_handler cfgU eventU now1 now2 post
      = (Upload.error_response 400 "filename is required", []) ∧
    Download.lambda_handler cfgD eventD headR getR
      = (Download.error_response 400 "object_key is required", []) := by
  constructor
  · unfold Upload.lambda_handler
    rw [hbU]
    unfold Upload.handleBody
    rcases hfn with h | h <;> simp [h, pyTruthyOpt, pyTruthy]
  · unfold Download.lambda_handler
    rw [hbD]
    unfold Download.handleBody
    rcases hok with h | h <;> simp [h, pyTruthyOpt, pyTruthy]

/-- Witness for C3 at the empty request body. -/
theorem c3_missing_identifier_rejected_without_calls_witness :
    Upload.lambda_handler ⟨"bucket", 300, 10485760, [], ""⟩ (.noBody (.objL []))
        tA tA (.ok "u" [])
      = (Upload.error_response 400 "filename is required", []) ∧
    Download.lambda_handler ⟨"bucket", 300, ""⟩ (.noBody (.objL [])) .ok (.ok "u")
      = (Download.error_response 400 "object_key is required", []) :=
  c3_missing_identifier_rejected_without_calls _ _ _ _ _ _ tA tA _ _ _
    rfl (Or.inl rfl) rfl (Or.inl rfl)

/-- C4: a download request with a truthy `object_key` whose existence check
raises a 404 `ClientError` yields the 404 "Object not found" envelope, and
the only collaborator call is the existence check (no presigning). -/
theorem c4_download_absent_object_404_no_presign
    (cfg : Download.Cfg) (event : EventInput) (entries : JObj) (k : JVal)
    (msg : String) (getR : Download.GetOutcome)
    (hb : extractBody event = .ok (.obj entries))
    (hk : (toEntries entries).lookup "object_key" = some k)
    (ht : pyTruthy k = true) :
    Download.lambda_handler cfg event (.clientError "404" msg) getR
      = (Download.error_response 404 "Object not found",
         [Download.Call.headObject cfg.bucketName k]) ∧
    ∀ c ∈ (Download.lambda_handler cfg event (.clientError "404" msg) getR).2,
      Download.isPresignGet c = false := by
  have hmain : Download.lambda_handler cfg event (.clientError "404" msg) getR
      = (Download.error_response 404 "Object not found",
         [Download.Call.headObject cfg.bucketName k]) := by
    unfold Download.lambda_handler
    rw [hb]
    unfold Download.handleBody
    simp [hk, pyTruthyOpt, ht]
  refine ⟨hmain, ?_⟩
  rw [hmain]
  intro c hc
  simp at hc
  simp [hc, Download.isPresignGet]

/-- Witness for C4 at scenario C's request. -/
theorem c4_download_absent_object_404_no_presign_witness :
    Download.lambda_handler ⟨"bucket", 300, ""⟩
        (.noBody (.objL [("object_key", .str "uploads/2024/02/13/120000/doc.pdf")]))
        (.clientError "404" "Not Found") (.ok "u")
      = (Download.error_response 404 "Object not found",
         [Download.Call.headObject "bucket" (.str "uploads/2024/02/13/120000/doc.pdf")]) ∧
    ∀ c ∈ (Download.lambda_handler ⟨"bucket", 300, ""⟩
        (.noBody (.objL [("object_key", .str "uploads/2024/02/13/120000/doc.pdf")]))
        (.clientError "404" "Not Found") (.ok "u")).2,
      Download.isPresignGet c = false :=
  c4_download_absent_object_404_no_presign _ _ _ _ _ _ rfl rfl (by decide)

/-- C5 counterexample: with allow-list `["application/pdf"]`, a request whose
defaulted content type `application/x-msdownload` is disallowed but whose
`filename` is missing yields the 400 envelope for the *filename* error, whose
message does not contain the rejected content type — contradicting the claim
that every such request gets an error message naming the rejected type. -/
theorem c5_counterexample_message_lacks_type :
    (Upload.lambda_handler ⟨"bucket", 300, 10485760, ["application/pdf"], ""⟩
        (.noBody (.objL [("content_type", .str "application/x-msdownload")]))
        tA tA (.ok "u" [])).1
      = Upload.error_response 400 "filename is required" ∧
    strContains "filename is required" "application/x-msdownload" = false :=
  ⟨rfl, by decide⟩

/-- C5 (amended): for every upload request *with a truthy filename* whose
(possibly defaulted) content type fails a non-empty allow-list, the handler
returns a 400 envelope whose message contains the rejected type, and no
collaborator call is made. -/
theorem c5_disallowed_type_rejected_naming_type
    (cfg : Upload.Cfg) (event : EventInput) (entries : JObj) (now1 now2 : DateTime)
    (post : Upload.PostOutcome) (ct : JVal)
    (hb : extractBody event = .ok (.obj entries))
    (hfn : pyTruthyOpt ((toEntries entries).lookup "filename") = true)
    (hctdef : ((toEntries entries).lookup "content_type").getD
      (.str "application/octet-stream") = ct)
    (hnm : Upload.ctDisallowed cfg ct = true) :
    Upload.lambda_handler cfg event now1 now2 post
      = (Upload.error_response 400 ("Content type " ++ pyStr ct ++ " not allowed"), []) ∧
    strContains ("Content type " ++ pyStr ct ++ " not allowed") (pyStr ct) = true := by
  constructor
  · unfold Upload.lambda_handler
    rw [hb]
    unfold Upload.handleBody
    simp [hfn, hctdef, hnm]
  · exact strContains_of_split _ _ ("Content type ".data) (" not allowed".data)
      (by simp [String.data_append, List.append_assoc])

/-- Witness for C5 (amended) at scenario B's request. -/
theorem c5_disallowed_type_rejected_naming_type_witness :
    Upload.lambda_handler ⟨"bucket", 300, 10485760, ["application/pdf"], ""⟩
        (.noBody (.objL [("filename", .str "x.exe"),
                         ("content_type", .str "application/x-msdownload")]))
        tA tA (.ok "u" [])
      = (Upload.error_response 400
          ("Content type " ++ pyStr (.str "application/x-msdownload") ++ " not allowed"), []) ∧
    strContains ("Content type " ++ pyStr (.str "application/x-msdownload") ++ " not allowed")
      (pyStr (.str "application/x-msdownload")) = true :=
  c5_disallowed_type_rejected_naming_type _ _ _ tA tA _ _
    rfl (by decide) rfl (by decide)

/-- C6: every upload request that passes validation derives the object key
`uploads/YYYY/MM/DD/HHMMSS/<filename>` from the first authorization-time
clock reading, with the filename verbatim. -/
theorem c6_object_key_format (cfg : Upload.Cfg) (event : EventInput) (entries : JObj)
    (now1 now2 : DateTime) (post : Upload.PostOutcome) (fn : String) (ms : JObj)
    (hb : extractBody event = .ok (.obj entries))
    (hfn : (toEntries entries).lookup "filename" = some (.str fn))
    (hne : fn ≠ "")
    (hct : Upload.ctDisallowed cfg (((toEntries entries).lookup "content_type").getD
      (.str "application/octet-stream")) = false)
    (hmd : ((toEntries entries).lookup "metadata").getD (.objL []) = .obj ms) :
    Upload.postKeys (Upload.lambda_handler cfg event now1 now2 post).2
      = ["uploads/" ++ strfKeyTimestamp now1 ++ "/" ++ fn] ∧
    strfKeyTimestamp now1
      = pad4 now1.year ++ "/" ++ pad2 now1.month ++ "/" ++ pad2 now1.day ++ "/" ++
        pad2 now1.hour ++ pad2 now1.minute ++ pad2 now1.second := by
  have hfnT : pyTruthyOpt ((toEntries entries).lookup "filename") = true := by
    rw [hfn]
    simp [pyTruthyOpt, pyTruthy, hne]
  constructor
  · unfold Upload.lambda_handler
    rw [hb]
    rw [Upload.handleBody_run cfg (toEntries entries) now1 now2 post ms hfnT hct hmd]
    simp [Upload.postKeys, hfn, pyStrOpt, pyStr]
  · rfl

/-- Witness for C6 at scenario A's request. -/
theorem c6_object_key_format_witness :
    Upload.postKeys (Upload.lambda_handler ⟨"bucket", 300, 10485760, [], ""⟩
        (.noBody (.objL [("filename", .str "doc.pdf")])) tA tB (.ok "u" [])).2
      = ["uploads/" ++ strfKeyTimestamp tA ++ "/" ++ "doc.pdf"] ∧
    strfKeyTimestamp tA
      = pad4 tA.year ++ "/" ++ pad2 tA.month ++ "/" ++ pad2 tA.day ++ "/" ++
        pad2 tA.hour ++ pad2 tA.minute ++ pad2 tA.second :=
  c6_object_key_format ⟨"bucket", 300, 10485760, [], ""⟩
    (.noBody (.objL [("filename", .str "doc.pdf")]))
    (ofEntries [("filename", .str "doc.pdf")]) tA tB (.ok "u" []) "doc.pdf"
    (ofEntries []) rfl rfl (by decide) rfl rfl

/-- C7 counterexample: the key is derived from the first `utcnow()` reading
(line 53) but the timestamp tag from the second (line 59); with the two
readings straddling a second boundary the tag is not the ISO rendering of
the key's instant. -/
theorem c7_counterexample_tag_not_key_instant :
    Upload.postKeys (Upload.lambda_handler ⟨"bucket", 300, 10485760, [], ""⟩
        (.noBody (.objL [("filename", .str "doc.pdf")])) tA tB (.ok "u" [])).2
      = ["uploads/" ++ strfKeyTimestamp tA ++ "/" ++ "doc.pdf"] ∧
    (Upload.postFields (Upload.lambda_handler ⟨"bucket", 300, 10485760, [], ""⟩
        (.noBody (.objL [("filename", .str "doc.pdf")])) tA tB (.ok "u" [])).2).lookup
        "x-amz-meta-uploaded-at"
      = some (.str (isoformat tB)) ∧
    isoformat tB ≠ isoformat tA :=
  ⟨by decide, by decide, by decide⟩

/-- C7 (amended): the uploaded-at tag is the ISO-8601 rendering of the
*second* authorization-time clock reading (the `utcnow()` call on line 59,
made just after the key is derived), provided the caller's metadata does
not shadow the uploaded-at field; it equals the rendering of the key's
instant exactly when the two readings coincide. -/
theorem c7_tag_from_second_clock_reading (cfg : Upload.Cfg) (event : EventInput)
    (entries : JObj) (now1 now2 : DateTime) (post : Upload.PostOutcome)
    (fn : String) (ms : JObj)
    (hb : extractBody event = .ok (.obj entries))
    (hfn : (toEntries entries).lookup "filename" = some (.str fn))
    (hne : fn ≠ "")
    (hct : Upload.ctDisallowed cfg (((toEntries entries).lookup "content_type").getD
      (.str "application/octet-stream")) = false)
    (hmd : ((toEntries entries).lookup "metadata").getD (.objL []) = .obj ms)
    (hua : ∀ p ∈ toEntries ms, p.1 ≠ "uploaded-at") :
    (Upload.postFields (Upload.lambda_handler cfg event now1 now2 post).2).lookup
        "x-amz-meta-uploaded-at" = some (.str (isoformat now2)) ∧
    (now2 = now1 →
      (Upload.postFields (Upload.lambda_handler cfg event now1 now2 post).2).lookup
        "x-amz-meta-uploaded-at" = some (.str (isoformat now1))) := by
  have hfnT : pyTruthyOpt ((toEntries entries).lookup "filename") = true := by
    rw [hfn]
    simp [pyTruthyOpt, pyTruthy, hne]
  have hfresh : ∀ p ∈ toEntries ms, ("x-amz-meta-" ++ p.1) ≠ "x-amz-meta-uploaded-at" :=
    fun p hp => metaKey_ne_ua p.1 (hua p hp)
  have hbase : (Upload.metaFold (toEntries ms)
      [("Content-Type",
        ((toEntries entries).lookup "content_type").getD (.str "application/octet-stream")),
       ("x-amz-meta-uploaded-at", .str (isoformat now2))]).lookup "x-amz-meta-uploaded-at"
      = some (.str (isoformat now2)) := by
    rw [Upload.metaFold_lookup _ _ _ hfresh]
    simp [List.lookup]
  have h1 : (Upload.postFields (Upload.lambda_handler cfg event now1 now2 post).2).lookup
      "x-amz-meta-uploaded-at" = some (.str (isoformat now2)) := by
    unfold Upload.lambda_handler
    rw [hb, Upload.handleBody_run cfg (toEntries entries) now1 now2 post ms hfnT hct hmd]
    simp only [Upload.postFields, List.flatMap_cons, List.flatMap_nil, List.append_nil]
    by_cases hk : cfg.kmsKeyId = ""
    · simp only [hk, ne_eq, not_true_eq_false, if_false, ite_false]
      exact hbase
    · simp only [ne_eq, hk, not_false_eq_true, if_true, ite_true]
      rw [lookup_dictInsert_ne _ _ _ _ (by decide),
          lookup_dictInsert_ne _ _ _ _ (by decide)]
      exact hbase
  exact ⟨h1, fun h => h ▸ h1⟩

/-- Witness for C7 (amended) with coinciding clock readings. -/
theorem c7_tag_from_second_clock_reading_witness :
    (Upload.postFields (Upload.lambda_handler ⟨"bucket", 300, 10485760, [], "key-1"⟩
        (.noBody (.objL [("filename", .str "doc.pdf"),
                         ("metadata", .objL [("user_id", .str "123")])]))
        tA tA (.ok "u" [])).2).lookup
        "x-amz-meta-uploaded-at" = some (.str (isoformat tA)) ∧
    (tA = tA →
      (Upload.postFields (Upload.lambda_handler ⟨"bucket", 300, 10485760, [], "key-1"⟩
        (.noBody (.objL [("filename", .str "doc.pdf"),
                         ("metadata", .objL [("user_id", .str "123")])]))
        tA tA (.ok "u" [])).2).lookup
        "x-amz-meta-uploaded-at" = some (.str (isoformat tA))) :=
  c7_tag_from_second_clock_reading ⟨"bucket", 300, 10485760, [], "key-1"⟩
    (.noBody (.objL [("filename", .str "doc.pdf"),
                     ("metadata", .objL [("user_id", .str "123")])]))
    (ofEntries [("filename", .str "doc.pdf"),
                ("metadata", .objL [("user_id", .str "123")])])
    tA tA (.ok "u" []) "doc.pdf" (ofEntries [("user_id", .str "123")])
    rfl rfl (by decide) rfl rfl (by decide)

/-- C9 counterexample: a request that *supplies* a response-content-
disposition (the empty string) gets a presigning call with no disposition
parameter, because the source tests truthiness, not presence. -/
theorem c9_counterexample_empty_disposition_dropped :
    (toEntries (ofEntries [("object_key", .str "k"),
        ("response_content_disposition", .str "")])).lookup
        "response_content_disposition" = some (.str "") ∧
    (Download.lambda_handler ⟨"bucket", 300, ""⟩
        (.noBody (.objL [("object_key", .str "k"),
                         ("response_content_disposition", .str "")]))
        .ok (.ok "U")).2
      = [.headObject "bucket" (.str "k"),
         .presignGet "bucket" (.str "k") none 300] :=
  ⟨rfl, by decide⟩

/-- C9 (amended): for a download request for an existing object, the
presigning call carries the disposition override exactly when the request
supplied a *truthy* (non-empty) value, verbatim; and on presigning success
the result is a 200 envelope whose body carries `download_url`. -/
theorem c9_disposition_forwarded_iff_truthy (cfg : Download.Cfg) (event : EventInput)
    (entries : JObj) (getR : Download.GetOutcome) (k : JVal)
    (hb : extractBody event = .ok (.obj entries))
    (hk : (toEntries entries).lookup "object_key" = some k)
    (htk : pyTruthy k = true) :
    (∀ d, (toEntries entries).lookup "response_content_disposition" = some d →
       pyTruthy d = true →
       (Download.lambda_handler cfg event .ok getR).2
         = [.headObject cfg.bucketName k,
            .presignGet cfg.bucketName k (some d) cfg.expirationTime]) ∧
    (pyTruthyOpt ((toEntries entries).lookup "response_content_disposition") = false →
       (Download.lambda_handler cfg event .ok getR).2
         = [.headObject cfg.bucketName k,
            .presignGet cfg.bucketName k none cfg.expirationTime]) ∧
    (∀ url, getR = .ok url →
       (Download.lambda_handler cfg event .ok getR).1
         = Download.success_response (.objL
             [("download_url", .str url), ("object_key", k),
              ("expires_in", .num cfg.expirationTime)])) := by
  refine ⟨?_, ?_, ?_⟩
  · intro d hd htd
    unfold Download.lambda_handler
    rw [hb]
    unfold Download.handleBody
    simp only [hk, hd, pyTruthyOpt, htk, htd, Bool.not_true, Bool.false_eq_true, if_false,
               if_true, Option.getD_some]
    cases getR <;> simp
  · intro hf
    unfold Download.lambda_handler
    rw [hb]
    unfold Download.handleBody
    simp only [hk, pyTruthyOpt, htk, Bool.not_true, Bool.false_eq_true, if_false,
               Option.getD_some] at *
    simp only [hf, if_false, Bool.false_eq_true]
    cases getR <;> simp
  · intro url hurl
    subst hurl
    unfold Download.lambda_handler
    rw [hb]
    unfold Download.handleBody
    simp [hk, pyTruthyOpt, htk]

/-- Witness for C9 (amended) at scenario D's request. -/
theorem c9_disposition_forwarded_iff_truthy_witness :
    (∀ d, (toEntries (ofEntries [("object_key", .str "k"),
        ("response_content_disposition", .str "attachment; filename=out.pdf")])).lookup
        "response_content_disposition" = some d →
       pyTruthy d = true →
       (Download.lambda_handler ⟨"bucket", 300, ""⟩
          (.noBody (.objL [("object_key", .str "k"),
            ("response_content_disposition", .str "attachment; filename=out.pdf")]))
          .ok (.ok "U")).2
         = [.headObject "bucket" (.str "k"),
            .presignGet "bucket" (.str "k") (some d) 300]) ∧
    (pyTruthyOpt ((toEntries (ofEntries [("object_key", .str "k"),
        ("response_content_disposition", .str "attachment; filename=out.pdf")])).lookup
        "response_content_disposition") = false →
       (Download.lambda_handler ⟨"bucket", 300, ""⟩
          (.noBody (.objL [("object_key", .str "k"),
            ("response_content_disposition", .str "attachment; filename=out.pdf")]))
          .ok (.ok "U")).2
         = [.headObject "bucket" (.str "k"),
            .presignGet "bucket" (.str "k") none 300]) ∧
    (∀ url, (Download.GetOutcome.ok "U") = .ok url →
       (Download.lambda_handler ⟨"bucket", 300, ""⟩
          (.noBody (.objL [("object_key", .str "k"),
            ("response_content_disposition", .str "attachment; filename=out.pdf")]))
          .ok (.ok "U")).1
         = Download.success_response (.objL
             [("download_url", .str url), ("object_key", .str "k"),
              ("expires_in", .num 300)])) :=
  c9_disposition_forwarded_iff_truthy ⟨"bucket", 300, ""⟩
    (.noBody (.objL [("object_key", .str "k"),
      ("response_content_disposition", .str "attachment; filename=out.pdf")]))
    (ofEntries [("object_key", .str "k"),
      ("response_content_disposition", .str "attachment; filename=out.pdf")])
    (.ok "U") (.str "k") rfl rfl (by decide)

/-- Cross-origin header presence check: every envelope carries the
allow-origin header, and 200 envelopes additionally carry the
allow-methods POST and allow-headers Content-Type entries. -/
def corsOk (r : Response) : Bool :=
  (r.headers.lookup "Access-Control-Allow-Origin" == some "*") &&
  (!(r.statusCode == 200) ||
    ((r.headers.lookup "Access-Control-Allow-Methods" == some "POST") &&
     (r.headers.lookup "Access-Control-Allow-Headers" == some "Content-Type")))

lemma corsOk_success_upload (d : JVal) : corsOk (Upload.success_response d) = true := rfl

lemma corsOk_success_download (d : JVal) : corsOk (Download.success_response d) = true := rfl

lemma corsOk_error_upload (c : Int) (m : String) (h : ¬ c = 200) :
    corsOk (Upload.error_response c m) = true := by
  have hbeq : (c == 200) = false := beq_eq_false_iff_ne.mpr h
  simp [corsOk, Upload.error_response, List.lookup, hbeq]

lemma corsOk_error_download (c : Int) (m : String) (h : ¬ c = 200) :
    corsOk (Download.error_response c m) = true := by
  have hbeq : (c == 200) = false := beq_eq_false_iff_ne.mpr h
  simp [corsOk, Download.error_response, List.lookup, hbeq]

/-- Every upload response is a success envelope or an error envelope with
status 400 or 500. -/
lemma Upload.upload_handleBody_shape (cfg : Upload.Cfg) (entries : List (String × JVal))
    (now1 now2 : DateTime) (post : Upload.PostOutcome) :
    (∃ d, (Upload.handleBody cfg entries now1 now2 post).1 = Upload.success_response d) ∨
    (∃ c m, (Upload.handleBody cfg entries now1 now2 post).1 = Upload.error_response c m ∧
      (c = 400 ∨ c = 500)) := by
  unfold Upload.handleBody
  dsimp only
  repeat' split
  all_goals first
    | exact Or.inl ⟨_, rfl⟩
    | exact Or.inr ⟨400, _, rfl, Or.inl rfl⟩
    | exact Or.inr ⟨500, _, rfl, Or.inr rfl⟩

lemma Upload.upload_handler_shape (cfg : Upload.Cfg) (event : EventInput)
    (now1 now2 : DateTime) (post : Upload.PostOutcome) :
    (∃ d, (Upload.lambda_handler cfg event now1 now2 post).1 = Upload.success_response d) ∨
    (∃ c m, (Upload.lambda_handler cfg event now1 now2 post).1 = Upload.error_response c m ∧
      (c = 400 ∨ c = 500)) := by
  unfold Upload.lambda_handler
  rcases hE : extractBody event with e | v
  · exact Or.inr ⟨500, _, rfl, Or.inr rfl⟩
  · cases v with
    | obj entries => exact Upload.upload_handleBody_shape cfg (toEntries entries) now1 now2 post
    | null => exact Or.inr ⟨500, _, rfl, Or.inr rfl⟩
    | bool b => exact Or.inr ⟨500, _, rfl, Or.inr rfl⟩
    | num n => exact Or.inr ⟨500, _, rfl, Or.inr rfl⟩
    | str s => exact Or.inr ⟨500, _, rfl, Or.inr rfl⟩
    | arr xs => exact Or.inr ⟨500, _, rfl, Or.inr rfl⟩

/-- Every download response is a success envelope or an error envelope with
status 400, 404 or 500. -/
lemma Download.download_handleBody_shape (cfg : Download.Cfg) (entries : List (String × JVal))
    (headR : Download.HeadOutcome) (getR : Download.GetOutcome) :
    (∃ d, (Download.handleBody cfg entries headR getR).1 = Download.success_response d) ∨
    (∃ c m, (Download.handleBody cfg entries headR getR).1 = Download.error_response c m ∧
      (c = 400 ∨ c = 404 ∨ c = 500)) := by
  unfold Download.handleBody
  dsimp only
  repeat' split
  all_goals first
    | exact Or.inl ⟨_, rfl⟩
    | exact Or.inr ⟨400, _, rfl, Or.inl rfl⟩
    | exact Or.inr ⟨404, _, rfl, Or.inr (Or.inl rfl)⟩
    | exact Or.inr ⟨500, _, rfl, Or.inr (Or.inr rfl)⟩

lemma Download.download_handler_shape (cfg : Download.Cfg) (event : EventInput)
    (headR : Download.HeadOutcome) (getR : Download.GetOutcome) :
    (∃ d, (Download.lambda_handler cfg event headR getR).1 = Download.success_response d) ∨
    (∃ c m, (Download.lambda_handler cfg event headR getR).1 = Download.error_response c m ∧
      (c = 400 ∨ c = 404 ∨ c = 500)) := by
  unfold Download.lambda_handler
  rcases hE : extractBody event with e | v
  · exact Or.inr ⟨500, _, rfl, Or.inr (Or.inr rfl)⟩
  · cases v with
    | obj entries => exact Download.download_handleBody_shape cfg (toEntries entries) headR getR
    | null => exact Or.inr ⟨500, _, rfl, Or.inr (Or.inr rfl)⟩
    | bool b => exact Or.inr ⟨500, _, rfl, Or.inr (Or.inr rfl)⟩
    | num n => exact Or.inr ⟨500, _, rfl, Or.inr (Or.inr rfl)⟩
    | str s => exact Or.inr ⟨500, _, rfl, Or.inr (Or.inr rfl)⟩
    | arr xs => exact Or.inr ⟨500, _, rfl, Or.inr (Or.inr rfl)⟩

/-- C8 counterexample: an error envelope produced by the upload handler
carries neither the allow-methods nor the allow-headers entry, contradicting
the claim that every envelope permits cross-origin POST with a Content-Type
request header. -/
theorem c8_counterexample_error_envelope_lacks_cors_entries :
    (Upload.lambda_handler ⟨"bucket", 300, 10485760, [], ""⟩ (.noBody (.objL []))
        tA tA (.ok "u" [])).1.headers.lookup "Access-Control-Allow-Methods" = none ∧
    (Upload.lambda_handler ⟨"bucket", 300, 10485760, [], ""⟩ (.noBody (.objL []))
        tA tA (.ok "u" [])).1.headers.lookup "Access-Control-Allow-Headers" = none ∧
    (Upload.lambda_handler ⟨"bucket", 300, 10485760, [], ""⟩ (.noBody (.objL []))
        tA tA (.ok "u" [])).1.statusCode = 400 :=
  ⟨rfl, rfl, rfl⟩

/-- C8 (amended): every response of either handler carries the cross-origin
allow-origin header; success (200) envelopes additionally carry allow-methods
POST and allow-headers Content-Type; error envelopes carry only the
allow-origin entry (beside Content-Type). -/
theorem c8_cors_headers (cfgU : Upload.Cfg) (eventU : EventInput)
    (now1 now2 : DateTime) (post : Upload.PostOutcome)
    (cfgD : Download.Cfg) (eventD : EventInput)
    (headR : Download.HeadOutcome) (getR : Download.GetOutcome) :
    corsOk (Upload.lambda_handler cfgU eventU now1 now2 post).1 = true ∧
    corsOk (Download.lambda_handler cfgD eventD headR getR).1 = true ∧
    (∀ (c : Int) (m : String), (Upload.error_response c m).headers
      = [("Content-Type", "application/json"), ("Access-Control-Allow-Origin", "*")]) ∧
    (∀ (c : Int) (m : String), (Download.error_response c m).headers
      = [("Content-Type", "application/json"), ("Access-Control-Allow-Origin", "*")]) := by
  refine ⟨?_, ?_, fun c m => rfl, fun c m => rfl⟩
  · rcases Upload.upload_handler_shape cfgU eventU now1 now2 post with ⟨d, h⟩ | ⟨c, m, h, hc⟩
    · rw [h]; exact corsOk_success_upload d
    · rw [h]
      exact corsOk_error_upload c m (by rcases hc with h4 | h5 <;> omega)
  · rcases Download.download_handler_shape cfgD eventD headR getR with ⟨d, h⟩ | ⟨c, m, h, hc⟩
    · rw [h]; exact corsOk_success_download d
    · rw [h]
      exact corsOk_error_download c m (by rcases hc with h4 | h4 | h4 <;> omega)

/-- The five condition-kind counts of a condition set. -/
def Upload.condCounts (l : List Upload.Cond) : Nat × Nat × Nat × Nat × Nat :=
  (l.countP Upload.isCTCond, l.countP Upload.isLenCond, l.countP Upload.isTSCond,
   l.countP Upload.isAlgCond, l.countP Upload.isKeyIdCond)

/-- C1 counterexample: with encryption configured and a (client-supplied)
content type whose text contains the encryption field name, the
remove-then-append filter of line 79 also removes the content-type
condition, so the final condition set passed to the collaborator has *no*
content-type condition. -/
theorem c1_counterexample_content_type_condition_removed :
    ((⟨"bucket", 300, 10485760, [], "key-1"⟩ : Upload.Cfg).kmsKeyId ≠ "") ∧
    (Upload.postConds (Upload.lambda_handler ⟨"bucket", 300, 10485760, [], "key-1"⟩
        (.noBody (.objL [("filename", .str "a.pdf"),
                         ("content_type", .str "x-amz-server-side-encryption")]))
        tA tA (.ok "u" [])).2).countP Upload.isCTCond = 0 :=
  ⟨by decide, by decide⟩

/-- C1 (amended): with encryption configured, the final condition set has
exactly one condition of each of the five kinds and is a fixed point of the
encryption-setup step (running it any number of further times changes
nothing) — provided the renderings of the content-type, size-range and
timestamp conditions do not themselves mention the encryption field name
and the metadata does not shadow the uploaded-at field. -/
theorem c1_condition_kinds_unique (cfg : Upload.Cfg) (event : EventInput)
    (entries : JObj) (now1 now2 : DateTime) (post : Upload.PostOutcome)
    (fn : String) (ms : JObj)
    (hb : extractBody event = .ok (.obj entries))
    (hfn : (toEntries entries).lookup "filename" = some (.str fn))
    (hne : fn ≠ "")
    (hct : Upload.ctDisallowed cfg (((toEntries entries).lookup "content_type").getD
      (.str "application/octet-stream")) = false)
    (hmd : ((toEntries entries).lookup "metadata").getD (.objL []) = .obj ms)
    (hkms : cfg.kmsKeyId ≠ "")
    (hua : ∀ p ∈ toEntries ms, p.1 ≠ "uploaded-at")
    (hkeepCT : Upload.condKeep (.contentType (((toEntries entries).lookup "content_type").getD
      (.str "application/octet-stream"))) = true)
    (hkeepLen : Upload.condKeep (.contentLengthRange 1 cfg.maxFileSize) = true)
    (hkeepTS : Upload.condKeep (.uploadedAt (.str (isoformat now2))) = true) :
    Upload.condCounts
      (Upload.postConds (Upload.lambda_handler cfg event now1 now2 post).2)
      = (1, 1, 1, 1, 1) ∧
    ∀ n : Nat, (Upload.encSetup cfg.kmsKeyId)^[n]
        (Upload.postConds (Upload.lambda_handler cfg event now1 now2 post).2)
      = Upload.postConds (Upload.lambda_handler cfg event now1 now2 post).2 := by
  have hfnT : pyTruthyOpt ((toEntries entries).lookup "filename") = true := by
    rw [hfn]
    simp [pyTruthyOpt, pyTruthy, hne]
  have hfresh : ∀ p ∈ toEntries ms, ("x-amz-meta-" ++ p.1) ≠ "x-amz-meta-uploaded-at" :=
    fun p hp => metaKey_ne_ua p.1 (hua p hp)
  have hts : (Upload.metaFold (toEntries ms)
      [("Content-Type",
        ((toEntries entries).lookup "content_type").getD (.str "application/octet-stream")),
       ("x-amz-meta-uploaded-at", .str (isoformat now2))]).lookup "x-amz-meta-uploaded-at"
      = some (.str (isoformat now2)) := by
    rw [Upload.metaFold_lookup _ _ _ hfresh]
    simp [List.lookup]
  have hconds : Upload.postConds (Upload.lambda_handler cfg event now1 now2 post).2
      = Upload.encSetup cfg.kmsKeyId
          [.contentType (((toEntries entries).lookup "content_type").getD
            (.str "application/octet-stream")),
           .contentLengthRange 1 cfg.maxFileSize,
           .uploadedAt (.str (isoformat now2))] := by
    unfold Upload.lambda_handler
    rw [hb, Upload.handleBody_run cfg (toEntries entries) now1 now2 post ms hfnT hct hmd]
    simp only [Upload.postConds, List.flatMap_cons, List.flatMap_nil, List.append_nil,
               ne_eq, hkms, not_false_eq_true, if_true, ite_true, hts, Option.getD_some]
  constructor
  · rw [hconds]
    unfold Upload.encSetup
    simp only [List.filter_cons, hkeepCT, hkeepLen, hkeepTS, if_true, List.filter_nil]
    simp [Upload.condCounts, List.countP_cons, Upload.isCTCond, Upload.isLenCond,
          Upload.isTSCond, Upload.isAlgCond, Upload.isKeyIdCond]
  · intro n
    rw [hconds]
    exact Upload.encSetup_iterate cfg.kmsKeyId _ n

/-- Witness for C1 (amended) at a concrete encrypted configuration. -/
theorem c1_condition_kinds_unique_witness :
    Upload.condCounts
      (Upload.postConds (Upload.lambda_handler ⟨"bucket", 300, 10485760, ["application/pdf"], "key-1"⟩
        (.noBody (.objL [("filename", .str "doc.pdf"),
                         ("content_type", .str "application/pdf")]))
        tA tA (.ok "u" [])).2)
      = (1, 1, 1, 1, 1) ∧
    ∀ n : Nat, (Upload.encSetup "key-1")^[n]
        (Upload.postConds (Upload.lambda_handler ⟨"bucket", 300, 10485760, ["application/pdf"], "key-1"⟩
          (.noBody (.objL [("filename", .str "doc.pdf"),
                           ("content_type", .str "application/pdf")]))
          tA tA (.ok "u" [])).2)
      = Upload.postConds (Upload.lambda_handler ⟨"bucket", 300, 10485760, ["application/pdf"], "key-1"⟩
          (.noBody (.objL [("filename", .str "doc.pdf"),
                           ("content_type", .str "application/pdf")]))
          tA tA (.ok "u" [])).2 :=
  c1_condition_kinds_unique ⟨"bucket", 300, 10485760, ["application/pdf"], "key-1"⟩
    (.noBody (.objL [("filename", .str "doc.pdf"),
                     ("content_type", .str "application/pdf")]))
    (ofEntries [("filename", .str "doc.pdf"), ("content_type", .str "application/pdf")])
    tA tA (.ok "u" []) "doc.pdf" (ofEntries [])
    rfl rfl (by decide) rfl rfl (by decide) (by decide) (by decide) (by decide) (by decide)

/-- C2 counterexample: a successful authorization whose request carries a
metadata entry produces a required-fields map containing the metadata field
`x-amz-meta-user_id`, but the condition set passed alongside contains no
condition binding it — so fields and conditions are not mutually consistent
once metadata fields are included. -/
theorem c2_counterexample_metadata_field_unbound :
    ¬ Upload.consistent
        (Upload.postFields (Upload.lambda_handler ⟨"bucket", 300, 10485760, [], ""⟩
          (.noBody (.objL [("filename", .str "doc.pdf"),
                           ("metadata", .objL [("user_id", .str "123")])]))
          tA tA (.ok "u" [("key", .str "policy")])).2)
        (Upload.postConds (Upload.lambda_handler ⟨"bucket", 300, 10485760, [], ""⟩
          (.noBody (.objL [("filename", .str "doc.pdf"),
                           ("metadata", .objL [("user_id", .str "123")])]))
          tA tA (.ok "u" [("key", .str "policy")])).2)
        [] := by
  unfold Upload.consistent
  decide

/-- C2 (amended): for every upload request that yields an authorization, the
required-fields map and the condition set passed to the collaborator are
mutually consistent *outside the caller-supplied metadata fields*: every
non-metadata field has a condition binding it to the same value and every
field-bound condition matches a field entry — provided the metadata keys
are unique, do not shadow the uploaded-at field, and (when encryption is
configured) the content-type and timestamp condition renderings do not
mention the encryption field name. -/
theorem c2_fields_conditions_consistent (cfg : Upload.Cfg) (event : EventInput)
    (entries : JObj) (now1 now2 : DateTime) (post : Upload.PostOutcome)
    (fn : String) (ms : JObj)
    (hb : extractBody event = .ok (.obj entries))
    (hfn : (toEntries entries).lookup "filename" = some (.str fn))
    (hne : fn ≠ "")
    (hct : Upload.ctDisallowed cfg (((toEntries entries).lookup "content_type").getD
      (.str "application/octet-stream")) = false)
    (hmd : ((toEntries entries).lookup "metadata").getD (.objL []) = .obj ms)
    (hnd : ((toEntries ms).map Prod.fst).Nodup)
    (hua : ∀ p ∈ toEntries ms, p.1 ≠ "uploaded-at")
    (hkeepCT : cfg.kmsKeyId ≠ "" → Upload.condKeep (.contentType
      (((toEntries entries).lookup "content_type").getD
        (.str "application/octet-stream"))) = true)
    (hkeepTS : cfg.kmsKeyId ≠ "" →
      Upload.condKeep (.uploadedAt (.str (isoformat now2))) = true) :
    Upload.consistent
      (Upload.postFields (Upload.lambda_handler cfg event now1 now2 post).2)
      (Upload.postConds (Upload.lambda_handler cfg event now1 now2 post).2)
      ((toEntries ms).map (fun p => "x-amz-meta-" ++ p.1)) := by
  have hfnT : pyTruthyOpt ((toEntries entries).lookup "filename") = true := by
    rw [hfn]
    simp [pyTruthyOpt, pyTruthy, hne]
  have hfresh : ∀ p ∈ toEntries ms, ("x-amz-meta-" ++ p.1) ≠ "x-amz-meta-uploaded-at" :=
    fun p hp => metaKey_ne_ua p.1 (hua p hp)
  have hts : (Upload.metaFold (toEntries ms)
      [("Content-Type",
        ((toEntries entries).lookup "content_type").getD (.str "application/octet-stream")),
       ("x-amz-meta-uploaded-at", .str (isoformat now2))]).lookup "x-amz-meta-uploaded-at"
      = some (.str (isoformat now2)) := by
    rw [Upload.metaFold_lookup _ _ _ hfresh]
    simp [List.lookup]
  have hF1 : Upload.metaFold (toEntries ms)
      [("Content-Type",
        ((toEntries entries).lookup "content_type").getD (.str "application/octet-stream")),
       ("x-amz-meta-uploaded-at", .str (isoformat now2))]
      = [("Content-Type",
          ((toEntries entries).lookup "content_type").getD (.str "application/octet-stream")),
         ("x-amz-meta-uploaded-at", .str (isoformat now2))]
        ++ (toEntries ms).map (fun p => ("x-amz-meta-" ++ p.1, JVal.str (pyStr p.2))) := by
    apply Upload.metaFold_append (toEntries ms) _ _ hnd
    intro p hp
    simp only [List.map_cons, List.map_nil, List.mem_cons, List.not_mem_nil, or_false]
    push_neg
    exact ⟨metaKey_ne_ct p.1, metaKey_ne_ua p.1 (hua p hp)⟩
  unfold Upload.lambda_handler
  rw [hb, Upload.handleBody_run cfg (toEntries entries) now1 now2 post ms hfnT hct hmd]
  simp only [Upload.postFields, Upload.postConds, List.flatMap_cons, List.flatMap_nil,
             List.append_nil, hts, Option.getD_some]
  by_cases hk : cfg.kmsKeyId = ""
  · simp only [hk, ne_eq, not_true_eq_false, if_false, ite_false]
    rw [hF1]
    constructor
    · intro p hp
      rcases List.mem_append.mp hp with hp0 | hpm
      · simp only [List.mem_cons, List.not_mem_nil, or_false] at hp0
        rcases hp0 with rfl | rfl
        · exact Or.inr ⟨.contentType _, by simp, rfl⟩
        · exact Or.inr ⟨.uploadedAt (.str (isoformat now2)), by simp, rfl⟩
      · left
        obtain ⟨q, hq, rfl⟩ := List.mem_map.mp hpm
        exact List.mem_map.mpr ⟨q, hq, rfl⟩
    · intro c hc p hcb
      simp only [List.mem_cons, List.not_mem_nil, or_false] at hc
      rcases hc with rfl | rfl | rfl
      · simp only [Upload.condBinds, Option.some_inj] at hcb
        subst hcb
        exact List.mem_append_left _ (by simp)
      · simp [Upload.condBinds] at hcb
      · simp only [Upload.condBinds, Option.some_inj] at hcb
        subst hcb
        exact List.mem_append_left _ (by simp)
  · simp only [ne_eq, hk, not_false_eq_true, if_true, ite_true]
    rw [hF1]
    have hA : "x-amz-server-side-encryption"
        ∉ (([("Content-Type",
              ((toEntries entries).lookup "content_type").getD (.str "application/octet-stream")),
             ("x-amz-meta-uploaded-at", .str (isoformat now2))]
            ++ (toEntries ms).map
                (fun p => ("x-amz-meta-" ++ p.1, JVal.str (pyStr p.2)))).map Prod.fst) := by
      simp only [List.map_append, List.mem_append, List.map_cons, List.map_nil,
                 List.mem_cons, List.not_mem_nil, or_false]
      push_neg
      refine ⟨⟨by decide, by decide⟩, ?_⟩
      intro hmm
      rw [List.map_map] at hmm
      obtain ⟨q, _, heq⟩ := List.mem_map.mp hmm
      exact metaKey_ne_sseAlg q.1 heq
    rw [dictInsert_of_not_mem _ _ _ hA]
    have hK : "x-amz-server-side-encryption-aws-kms-key-id"
        ∉ ((([("Content-Type",
              ((toEntries entries).lookup "content_type").getD (.str "application/octet-stream")),
             ("x-amz-meta-uploaded-at", .str (isoformat now2))]
            ++ (toEntries ms).map
                (fun p => ("x-amz-meta-" ++ p.1, JVal.str (pyStr p.2))))
            ++ [("x-amz-server-side-encryption", JVal.str "aws:kms")]).map Prod.fst) := by
      simp only [List.map_append, List.mem_append, List.map_cons, List.map_nil,
                 List.mem_cons, List.not_mem_nil, or_false]
      push_neg
      refine ⟨⟨⟨by decide, by decide⟩, ?_⟩, by decide⟩
      intro hmm
      rw [List.map_map] at hmm
      obtain ⟨q, _, heq⟩ := List.mem_map.mp hmm
      exact metaKey_ne_sseKeyId q.1 heq
    rw [dictInsert_of_not_mem _ _ _ hK]
    unfold Upload.encSetup
    constructor
    · intro p hp
      rcases List.mem_append.mp hp with hp1 | hpK
      · rcases List.mem_append.mp hp1 with hp2 | hpA
        · rcases List.mem_append.mp hp2 with hp0 | hpm
          · simp only [List.mem_cons, List.not_mem_nil, or_false] at hp0
            rcases hp0 with rfl | rfl
            · refine Or.inr ⟨.contentType _, List.mem_append_left _ ?_, rfl⟩
              exact List.mem_filter.mpr ⟨by simp, hkeepCT hk⟩
            · refine Or.inr ⟨.uploadedAt (.str (isoformat now2)),
                List.mem_append_left _ ?_, rfl⟩
              exact List.mem_filter.mpr ⟨by simp, hkeepTS hk⟩
          · left
            obtain ⟨q, hq, rfl⟩ := List.mem_map.mp hpm
            exact List.mem_map.mpr ⟨q, hq, rfl⟩
        · simp only [List.mem_singleton] at hpA
          subst hpA
          exact Or.inr ⟨.sseAlg "aws:kms", List.mem_append_right _ (by simp), rfl⟩
      · simp only [List.mem_singleton] at hpK
        subst hpK
        exact Or.inr ⟨.sseKeyId cfg.kmsKeyId, List.mem_append_right _ (by simp), rfl⟩
    · intro c hc p hcb
      rcases List.mem_append.mp hc with hcf | hce
      · have hc0 := (List.mem_filter.mp hcf).1
        simp only [List.mem_cons, List.not_mem_nil, or_false] at hc0
        rcases hc0 with rfl | rfl | rfl
        · simp only [Upload.condBinds, Option.some_inj] at hcb
          subst hcb
          exact List.mem_append_left _ (List.mem_append_left _ (List.mem_append_left _ (by simp)))
        · simp [Upload.condBinds] at hcb
        · simp only [Upload.condBinds, Option.some_inj] at hcb
          subst hcb
          exact List.mem_append_left _ (List.mem_append_left _ (List.mem_append_left _ (by simp)))
      · simp only [List.mem_cons, List.mem_singleton, List.not_mem_nil, or_false] at hce
        rcases hce with rfl | rfl
        · simp only [Upload.condBinds, Option.some_inj] at hcb
          subst hcb
          exact List.mem_append_left _ (List.mem_append_right _ (by simp))
        · simp only [Upload.condBinds, Option.some_inj] at hcb
          subst hcb
          exact List.mem_append_right _ (by simp)

/-- Witness for C2 (amended) at a concrete encrypted configuration with one
metadata entry. -/
theorem c2_fields_conditions_consistent_witness :
    Upload.consistent
      (Upload.postFields (Upload.lambda_handler ⟨"bucket", 300, 10485760, [], "key-1"⟩
        (.noBody (.objL [("filename", .str "doc.pdf"),
                         ("metadata", .objL [("user_id", .str "123")])]))
        tA tA (.ok "u" [])).2)
      (Upload.postConds (Upload.lambda_handler ⟨"bucket", 300, 10485760, [], "key-1"⟩
        (.noBody (.objL [("filename", .str "doc.pdf"),
                         ("metadata", .objL [("user_id", .str "123")])]))
        tA tA (.ok "u" [])).2)
      ((toEntries (ofEntries [("user_id", .str "123")])).map
        (fun p => "x-amz-meta-" ++ p.1)) :=
  c2_fields_conditions_consistent ⟨"bucket", 300, 10485760, [], "key-1"⟩
    (.noBody (.objL [("filename", .str "doc.pdf"),
                     ("metadata", .objL [("user_id", .str "123")])]))
    (ofEntries [("filename", .str "doc.pdf"),
                ("metadata", .objL [("user_id", .str "123")])])
    tA tA (.ok "u" []) "doc.pdf" (ofEntries [("user_id", .str "123")])
    rfl rfl (by decide) rfl rfl (by decide) (by decide)
    (fun _ => by decide) (fun _ => by decide)
